import Mathlib

/-!
Shallow embedding of the transaction submission and confirmation engine of
QuasarClient (src/src/client/client.ts): signTransaction, signTransactions,
sendTransaction, sendSignedTransaction, sendTransactions, the shared done
flag, the rebroadcast loop, and the failure-diagnosis block, together with
theorems settling the frozen claims about them.

Modelling conventions:
* machine state that the TypeScript mutates in place (the Transaction object,
  the local done flag) is threaded explicitly: each value records the state of
  the underlying object after the corresponding statements have run;
* time is measured in integer milliseconds; getUnixTs returns seconds, so the
  source comparison (getUnixTs() - startTime) < timeout / 1000 is rendered as
  elapsedMs < timeout, and (getUnixTs() - startTime) < timeout (in
  sendSignedTransaction, where the left side is in seconds and the right side
  in milliseconds) as elapsedMs < 1000 * timeout — both are exact renderings
  of the real-valued comparisons;
* the external network is an environment: the outcome of
  awaitTransactionSignatureConfirmation and of simulateTransaction (both live
  in ./utils, outside the engine) are inputs, as are the schedules of done
  and clock observations made by the fire-and-forget rebroadcast loop.
-/

namespace Quasar

/-- Durability levels reported by the network (ordered set used by the client). -/
inductive TransactionConfirmationStatus
  | processed
  | confirmed
  | finalized
  deriving DecidableEq, Repr

/-- Model of a web3 Account: locally held key material identified by its public key. -/
structure Account where
  pubkey : Nat
  deriving DecidableEq, Repr

/-- Model of a Transaction object: the freshness token (recent blockhash), the
required-signer list set by setSigners, and the signatures attached so far
(identified by the signing public key). -/
structure Transaction where
  recentBlockhash : Option Nat := none
  signers : List Nat := []
  sigs : List Nat := []
  deriving DecidableEq, Repr

/-- transaction.setSigners(pk0, ...): fixes the required-signer list and resets
the attached signatures. -/
def Transaction.setSigners (t : Transaction) (pks : List Nat) : Transaction :=
  { t with signers := pks, sigs := [] }

/-- transaction.partialSign(...signers): attaches the signatures of the given
locally held accounts. -/
def Transaction.partialSign (t : Transaction) (accs : List Account) : Transaction :=
  { t with sigs := t.sigs ++ accs.map Account.pubkey }

/-- transaction.sign(...signers): re-fixes the signer list to exactly the given
identities and attaches all of their signatures. -/
def Transaction.sign (t : Transaction) (pks : List Nat) : Transaction :=
  { t with signers := pks, sigs := pks }

/-- transaction.serialize(): the wire bytes are a function of the final
transaction state (freshness token, signer list, signatures). -/
def Transaction.serialize (t : Transaction) : List Nat :=
  (match t.recentBlockhash with
   | some b => [1, b]
   | none => [0]) ++ [t.signers.length] ++ t.signers ++ [t.sigs.length] ++ t.sigs

/-- Model of a WalletAdapter: an external wallet capability. connected mirrors
the adapter's connected property; signMutate gives the state of a transaction
object after the wallet's signTransaction call (its in-place effect on the
passed object), while signReturn gives the value that call returns; signAll
models signAllTransactions. -/
structure WalletAdapter where
  pubkey : Nat
  connected : Bool
  signMutate : Transaction → Transaction
  signReturn : Transaction → Transaction
  signAll : List Transaction → List Transaction

/-- Payer argument of the client methods: Account | WalletAdapter. -/
inductive Payer
  | account (a : Account)
  | wallet (w : WalletAdapter)

/-- payer.publicKey. -/
def Payer.publicKey : Payer → Nat
  | .account a => a.pubkey
  | .wallet w => w.pubkey

/-- Truthiness of payer?.connected: an Account has no connected property
(undefined, hence falsy); a WalletAdapter carries its Boolean flag. -/
def Payer.connected : Payer → Bool
  | .account _ => false
  | .wallet w => w.connected

/-- payer instanceof Account. -/
def Payer.isAccount : Payer → Bool
  | .account _ => true
  | .wallet _ => false

/-- Preparation shared by both signing entry points: set the freshness token,
fix the signer list to payer first then the additional signers, and attach the
additional signers partial signatures when there are any. -/
def preSignPrepare (blockhash : Nat) (t : Transaction) (payerPk : Nat)
    (signers : List Account) : Transaction :=
  let t1 : Transaction := { t with recentBlockhash := some blockhash }
  let t2 := t1.setSigners (payerPk :: signers.map Account.pubkey)
  if signers.length > 0 then t2.partialSign signers else t2

/-- Result of one signTransaction call: the state of the transaction object
after the call, the value the method returns (the wallet branch returns the
wallet's result, the local branch returns undefined), whether signing was
delegated to the wallet, whether a local transaction.sign ran, and — when
delegated — the transaction state handed to the wallet. -/
structure SignOutcome where
  txAfter : Transaction
  returned : Option Transaction
  delegated : Bool
  localSigned : Bool
  passedToWallet : Option Transaction

/-- QuasarClient.signTransaction: fetch the blockhash, set signers, attach the
additional signers partial signatures, then either delegate to the wallet
(when payer?.connected is truthy) or sign locally with payer plus signers. -/
def signTransaction (blockhash : Nat) (transaction : Transaction) (payer : Payer)
    (signers : List Account) : SignOutcome :=
  let t3 := preSignPrepare blockhash transaction payer.publicKey signers
  match payer with
  | .wallet w =>
      if w.connected then
        { txAfter := w.signMutate t3
          returned := some (w.signReturn t3)
          delegated := true
          localSigned := false
          passedToWallet := some t3 }
      else
        { txAfter := t3.sign (payer.publicKey :: signers.map Account.pubkey)
          returned := none
          delegated := false
          localSigned := true
          passedToWallet := none }
  | .account _ =>
      { txAfter := t3.sign (payer.publicKey :: signers.map Account.pubkey)
        returned := none
        delegated := false
        localSigned := true
        passedToWallet := none }

/-- Result of one signTransactions call over a batch. -/
structure SignAllOutcome where
  txsAfter : List Transaction
  delegated : Bool
  localSigned : Bool

/-- QuasarClient.signTransactions: one blockhash for the whole batch, per-item
preparation, then delegate the whole batch to the wallet when the payer is not
an Account (instanceof test), else sign each locally. -/
def signTransactions (blockhash : Nat)
    (transactionsAndSigners : List (Transaction × List Account))
    (payer : Payer) : SignAllOutcome :=
  let prepared := transactionsAndSigners.map
    (fun p => preSignPrepare blockhash p.1 payer.publicKey p.2)
  match payer with
  | .wallet w =>
      { txsAfter := w.signAll prepared, delegated := true, localSigned := false }
  | .account _ =>
      { txsAfter :=
          (transactionsAndSigners.map
            (fun p => (preSignPrepare blockhash p.1 payer.publicKey p.2).sign
              (payer.publicKey :: p.2.map Account.pubkey)))
        delegated := false
        localSigned := true }

/-- Tag of a program-emitted log line. -/
def programLogTag : String := "Program log: "

/-- line.startsWith(tag), rendered on the character lists of the strings. -/
def strStartsWith (line tag : String) : Bool :=
  tag.toList.isPrefixOf line.toList

/-- Backward scan of the simulation logs (the for-loop running i from
logs.length - 1 down to 0): the first line, scanning from the end, that starts
with the program-log tag, stripped of that tag (line.slice of the tag
length). -/
def findProgramLog (logs : List String) : Option String :=
  (logs.reverse.find? (fun line => strStartsWith line programLogTag)).map
    (fun line => line.drop programLogTag.length)

/-- Error object thrown by awaitTransactionSignatureConfirmation; the catch
block only inspects truthiness of its timeout property. -/
structure ConfirmErr where
  timeout : Bool
  deriving DecidableEq, Repr

/-- Simulation response value: optional on-chain error payload (modelled as its
JSON rendering) and optional log lines. -/
structure SimulatedTransactionResponse where
  err : Option String
  logs : Option (List String)
  deriving DecidableEq, Repr

/-- Errors thrown by sendTransaction / sendSignedTransaction, one constructor
per throw site of the source. -/
inductive TxError
  | timedOut
  | programLog (msg : String)
  | rawPayload (e : String)
  | generic
  deriving DecidableEq, Repr

/-- Message string of each thrown Error (rawPayload carries the
JSON.stringify rendering of the on-chain error payload directly). -/
def TxError.message : TxError → String
  | .timedOut => "Timed out awaiting confirmation on transaction"
  | .programLog m => "Transaction failed: " ++ m
  | .rawPayload e => e
  | .generic => "Transaction failed"

/-- Diagnosis carried by a failure produced from a simulation response: the
stripped program-log content, or the serialized raw on-chain error payload. -/
def TxError.diagnosis : TxError → Option String
  | .programLog m => some m
  | .rawPayload e => some e
  | _ => none

/-- Catch block shared verbatim by sendTransaction and sendSignedTransaction:
on a timeout error rethrow immediately; otherwise consult the simulation
result (null when the simulation call itself threw), and when it reports an
on-chain error extract the diagnosis by the backward log scan, falling back to
the serialized payload, else throw the generic failure. -/
def confirmFailureError (err : ConfirmErr)
    (sim : Except Unit SimulatedTransactionResponse) : TxError :=
  if err.timeout then .timedOut
  else
    let simulateResult : Option SimulatedTransactionResponse :=
      match sim with
      | .ok r => some r
      | .error _ => none
    match simulateResult with
    | some r =>
        match r.err with
        | some e =>
            match r.logs with
            | some logs =>
                match findProgramLog logs with
                | some m => .programLog m
                | none => .rawPayload e
            | none => .rawPayload e
        | none => .generic
    | none => .generic

/-- Environment of one submission: the blockhash fetched at signing time, the
txid the initial sendRawTransaction returns, the outcome of
awaitTransactionSignatureConfirmation, and the outcome of simulateTransaction
(error when the simulation call itself throws). -/
structure SendEnv where
  blockhash : Nat
  txid : Nat
  confirm : Except ConfirmErr Unit
  sim : Except Unit SimulatedTransactionResponse

/-- One network submission: the bytes handed to sendRawTransaction and the
skipPreflight option it was issued with. -/
structure SendEvent where
  bytes : List Nat
  skipPreflight : Bool
  deriving DecidableEq, Repr

/-- Guard of the rebroadcast while-loop: not done, and the elapsed time is
still below the bound (boundMs is timeout in sendTransaction, where the source
compares seconds against timeout / 1000, and 1000 * timeout in
sendSignedTransaction, where the source compares elapsed seconds against the
raw millisecond timeout). -/
def loopGuard (done : Bool) (elapsedMs boundMs : Nat) : Bool :=
  !done && decide (elapsedMs < boundMs)

/-- Rebroadcast loop, from iteration i on, as a function of the observation
schedules: doneAt i and elapsedMsAt i are the values of the done flag and of
the clock read at the i-th guard evaluation. Each iteration whose guard passes
issues one resubmission of the captured raw bytes with skipPreflight true.
fuel bounds the number of guard evaluations. -/
def broadcastLoopFrom (raw : List Nat) (boundMs : Nat) (doneAt : Nat → Bool)
    (elapsedMsAt : Nat → Nat) : Nat → Nat → List SendEvent
  | 0, _ => []
  | fuel + 1, i =>
      if loopGuard (doneAt i) (elapsedMsAt i) boundMs then
        { bytes := raw, skipPreflight := true } ::
          broadcastLoopFrom raw boundMs doneAt elapsedMsAt fuel (i + 1)
      else []

/-- Resubmissions the rebroadcast loop issues, starting at iteration 0. -/
def broadcastLoopSends (raw : List Nat) (boundMs : Nat) (doneAt : Nat → Bool)
    (elapsedMsAt : Nat → Nat) (fuel : Nat) : List SendEvent :=
  broadcastLoopFrom raw boundMs doneAt elapsedMsAt fuel 0

/-- Result of one sendTransaction / sendSignedTransaction call: the returned
txid or thrown error, the transaction state at serialization time, the bytes
serialized once and captured by the loop, the initial network submission, the
loop parameters (warm-up sleep, per-iteration sleep, guard time bound in
milliseconds), the sequence of writes to the done flag after its
initialization to false, whether simulateTransaction was invoked, the
commitment level the simulation would use, and the timeout and confirmation
level passed to the confirmation watcher. -/
structure SendOutcome where
  result : Except TxError Nat
  signedTx : Transaction
  rawTransaction : List Nat
  initialSend : SendEvent
  loopWarmupMs : Nat
  loopCadenceMs : Nat
  loopGuardBoundMs : Nat
  doneWrites : List Bool
  simInvoked : Bool
  simCommitment : String
  timeoutMsUsed : Nat
  confirmLevelUsed : TransactionConfirmationStatus

/-- QuasarClient.sendTransaction with explicit timeout and confirmLevel
arguments: sign (mutating the transaction object in place and discarding the
value signTransaction returns), serialize once, send with skipPreflight true,
start the rebroadcast loop (warm-up sleep 1000 ms, resubmission every 2000 ms,
guard bound timeout ms), await confirmation, and on failure run the shared
catch block; the finally clause writes done := true exactly once on every exit
path. -/
def sendTransactionWith (transaction : Transaction) (payer : Payer)
    (additionalSigners : List Account) (env : SendEnv) (timeout : Nat)
    (confirmLevel : TransactionConfirmationStatus) : SendOutcome :=
  let signOut := signTransaction env.blockhash transaction payer additionalSigners
  let rawTransaction := signOut.txAfter.serialize
  { result :=
      match env.confirm with
      | .ok _ => .ok env.txid
      | .error err => .error (confirmFailureError err env.sim)
    signedTx := signOut.txAfter
    rawTransaction := rawTransaction
    initialSend := { bytes := rawTransaction, skipPreflight := true }
    loopWarmupMs := 1000
    loopCadenceMs := 2000
    loopGuardBoundMs := timeout
    doneWrites := [true]
    simInvoked :=
      match env.confirm with
      | .ok _ => false
      | .error err => !err.timeout
    simCommitment := "processed"
    timeoutMsUsed := timeout
    confirmLevelUsed := confirmLevel }

/-- QuasarClient.sendTransaction with its default arguments
(timeout = 30000, confirmLevel = processed). -/
def sendTransactionDefault (transaction : Transaction) (payer : Payer)
    (additionalSigners : List Account) (env : SendEnv) : SendOutcome :=
  sendTransactionWith transaction payer additionalSigners env 30000 .processed

/-- QuasarClient.sendSignedTransaction with explicit arguments: serialize the
already-signed transaction once, send with skipPreflight true, start the
rebroadcast loop (warm-up sleep 500 ms, resubmission every 500 ms, guard bound
1000 * timeout ms because the source compares elapsed seconds against the raw
millisecond timeout), await confirmation, and on failure run the shared catch
block; the finally clause writes done := true exactly once on every exit
path. -/
def sendSignedTransactionWith (signedTransaction : Transaction) (env : SendEnv)
    (timeout : Nat) (confirmLevel : TransactionConfirmationStatus) : SendOutcome :=
  let rawTransaction := signedTransaction.serialize
  { result :=
      match env.confirm with
      | .ok _ => .ok env.txid
      | .error err => .error (confirmFailureError err env.sim)
    signedTx := signedTransaction
    rawTransaction := rawTransaction
    initialSend := { bytes := rawTransaction, skipPreflight := true }
    loopWarmupMs := 500
    loopCadenceMs := 500
    loopGuardBoundMs := 1000 * timeout
    doneWrites := [true]
    simInvoked :=
      match env.confirm with
      | .ok _ => false
      | .error err => !err.timeout
    simCommitment := "single"
    timeoutMsUsed := timeout
    confirmLevelUsed := confirmLevel }

/-- QuasarClient.sendSignedTransaction with its default arguments
(timeout = 30000, confirmLevel = processed). -/
def sendSignedTransactionDefault (signedTransaction : Transaction)
    (env : SendEnv) : SendOutcome :=
  sendSignedTransactionWith signedTransaction env 30000 .processed

/-- Promise.all over already-settled outcomes: all fulfilled gives the list of
values in order; otherwise the aggregate rejects with a rejection of a slot
(the real Promise.all rejects with the temporally first rejection; this model
takes the first in index order, which is one of the slot rejections). -/
def promiseAll {α : Type} : List (Except TxError α) → Except TxError (List α)
  | [] => .ok []
  | .ok a :: rest => (promiseAll rest).map (fun l => a :: l)
  | .error e :: _ => .error e

/-- QuasarClient.sendTransactions with explicit arguments: map each
transaction to its own sendTransaction call (slot i running in environment
envOf i) and aggregate with Promise.all. -/
def sendTransactionsWith (transactions : List Transaction) (payer : Payer)
    (additionalSigners : List Account) (envOf : Nat → SendEnv) (timeout : Nat)
    (confirmLevel : TransactionConfirmationStatus) : Except TxError (List Nat) :=
  promiseAll (transactions.enum.map
    (fun p =>
      (sendTransactionWith p.2 payer additionalSigners (envOf p.1) timeout
        confirmLevel).result))

/-- QuasarClient.sendTransactions with its default arguments
(timeout = 30000, confirmLevel = confirmed). -/
def sendTransactionsDefault (transactions : List Transaction) (payer : Payer)
    (additionalSigners : List Account) (envOf : Nat → SendEnv) :
    Except TxError (List Nat) :=
  sendTransactionsWith transactions payer additionalSigners envOf 30000 .confirmed

/-! Concrete fixtures used to evaluate the model on closed inputs. -/

/-- Fixture transaction. -/
def sampleTx : Transaction := {}

/-- Fixture payer holding local key material. -/
def samplePayer : Payer := .account { pubkey := 1 }

/-- Fixture additional signer account. -/
def sampleSigner : Account := { pubkey := 3 }

/-- Environment in which confirmation succeeds. -/
def sampleEnvOk : SendEnv :=
  { blockhash := 7, txid := 11, confirm := .ok (), sim := .error () }

/-- Environment in which the watcher raises a timeout error. -/
def sampleEnvTimeout : SendEnv :=
  { blockhash := 7, txid := 11, confirm := .error { timeout := true }, sim := .error () }

/-- Environment in which the watcher raises an on-chain failure and the
simulation call itself then throws. -/
def sampleEnvSimThrew : SendEnv :=
  { blockhash := 7, txid := 11, confirm := .error { timeout := false }, sim := .error () }

/-- Log lines of the worked diagnosis-extraction example. -/
def sampleLogs : List String :=
  ["Program log: step1", "Program log: insufficient funds", "Program consumed 100 units"]

/-- Environment in which the watcher raises an on-chain failure and the
simulation reports an error payload together with the sample logs. -/
def sampleEnvSimLogs : SendEnv :=
  { blockhash := 7, txid := 11, confirm := .error { timeout := false },
    sim := .ok { err := some "custom program error 0x1", logs := some sampleLogs } }

/-- Connected wallet fixture whose signing acts purely by in-place mutation. -/
def sampleConnectedWallet : WalletAdapter :=
  { pubkey := 5, connected := true, signMutate := id, signReturn := id,
    signAll := fun l => l }

/-- Wallet fixture whose adapter reports connected = false. -/
def sampleDisconnectedWallet : WalletAdapter :=
  { pubkey := 5, connected := false, signMutate := id, signReturn := id,
    signAll := fun l => l }

/-! Helper lemmas about the rebroadcast loop and the Promise.all aggregate. -/

/-- Every event the rebroadcast loop emits carries the captured raw bytes and
was issued with skipPreflight true. -/
theorem mem_broadcastLoopFrom (raw : List Nat) (bound : Nat) (doneAt : Nat → Bool)
    (elapsed : Nat → Nat) :
    ∀ (fuel i : Nat) (ev : SendEvent),
      ev ∈ broadcastLoopFrom raw bound doneAt elapsed fuel i →
      ev.bytes = raw ∧ ev.skipPreflight = true := by
  intro fuel
  induction fuel with
  | zero =>
      intro i ev h
      simp [broadcastLoopFrom] at h
  | succ n ih =>
      intro i ev h
      simp only [broadcastLoopFrom] at h
      split at h
      · rcases List.mem_cons.mp h with h1 | h2
        · subst h1; exact ⟨rfl, rfl⟩
        · exact ih (i + 1) ev h2
      · simp at h

/-- Once the done flag is observed true at iteration k, the loop iterates no
further: starting at i ≤ k it emits at most k - i events. -/
theorem broadcastLoopFrom_length_le (raw : List Nat) (bound : Nat)
    (doneAt : Nat → Bool) (elapsed : Nat → Nat) {k : Nat} (hk : doneAt k = true) :
    ∀ (fuel i : Nat), i ≤ k →
      (broadcastLoopFrom raw bound doneAt elapsed fuel i).length ≤ k - i := by
  intro fuel
  induction fuel with
  | zero =>
      intro i _
      simp [broadcastLoopFrom]
  | succ n ih =>
      intro i hi
      simp only [broadcastLoopFrom]
      split
      · next hguard =>
          simp only [loopGuard, Bool.and_eq_true, Bool.not_eq_true',
            decide_eq_true_eq] at hguard
          have hik : i < k := by
            rcases Nat.lt_or_ge i k with h | h
            · exact h
            · exfalso
              have hieq : i = k := Nat.le_antisymm hi h
              rw [hieq, hk] at hguard
              simp at hguard
          have hrec := ih (i + 1) hik
          simp only [List.length_cons]
          omega
      · simp

/-- Promise.all over a list of fulfilled slots resolves with the
index-aligned list of values. -/
theorem promiseAll_map_ok {α : Type} (l : List α) :
    promiseAll (l.map Except.ok) = .ok l := by
  induction l with
  | nil => rfl
  | cons a tl ih => simp [promiseAll, ih, Except.map]

/-- When Promise.all resolves, every slot had resolved, with the values
aligned by index. -/
theorem promiseAll_ok_eq {α : Type} :
    ∀ (ps : List (Except TxError α)) (l : List α),
      promiseAll ps = .ok l → ps = l.map Except.ok := by
  intro ps
  induction ps with
  | nil =>
      intro l h
      simp only [promiseAll] at h
      cases h
      rfl
  | cons hd tl ih =>
      intro l h
      cases hd with
      | error e => simp [promiseAll] at h
      | ok a =>
          simp only [promiseAll] at h
          cases htl : promiseAll tl with
          | error e => rw [htl] at h; simp [Except.map] at h
          | ok l0 =>
              rw [htl] at h
              simp only [Except.map] at h
              cases h
              simp [ih l0 htl]

/-- When Promise.all rejects, the rejection is the error of one of the
slots. -/
theorem promiseAll_error_mem {α : Type} :
    ∀ (ps : List (Except TxError α)) (e : TxError),
      promiseAll ps = .error e → Except.error e ∈ ps := by
  intro ps
  induction ps with
  | nil =>
      intro e h
      simp [promiseAll] at h
  | cons hd tl ih =>
      intro e h
      cases hd with
      | error e0 =>
          simp only [promiseAll] at h
          cases h
          exact List.mem_cons_self _ _
      | ok a =>
          simp only [promiseAll] at h
          cases htl : promiseAll tl with
          | ok l0 => rw [htl] at h; simp [Except.map] at h
          | error e0 =>
              rw [htl] at h
              simp only [Except.map] at h
              cases h
              exact List.mem_cons_of_mem _ (ih _ htl)

/-- Partial signatures attached by the shared preparation are exactly those of
the additional signers (setSigners resets the signature slots first). -/
theorem preSignPrepare_sigs (bh : Nat) (t : Transaction) (pk : Nat)
    (signers : List Account) :
    (preSignPrepare bh t pk signers).sigs = signers.map Account.pubkey := by
  simp only [preSignPrepare, Transaction.setSigners, Transaction.partialSign]
  split
  · simp
  · next h =>
      have hs : signers = [] := List.length_eq_zero.mp (Nat.eq_zero_of_not_pos h)
      simp [hs]

/-- On the non-timeout failure path with a simulation reporting an on-chain
error and log lines, the thrown error is determined by the last tagged log
line: the backward scan of the source coincides with taking the last element
of the tag-filtered log list. -/
theorem confirmFailureError_with_logs (err : ConfirmErr) (h : err.timeout = false)
    (e : String) (logs : List String) :
    confirmFailureError err (.ok { err := some e, logs := some logs }) =
      match (logs.filter (fun line => strStartsWith line programLogTag)).getLast? with
      | some line => .programLog (line.drop programLogTag.length)
      | none => .rawPayload e := by
  simp only [confirmFailureError, h, Bool.false_eq_true, if_false, findProgramLog,
    List.filter_getLast?]
  cases hf : logs.reverse.find? (fun line => strStartsWith line programLogTag) <;>
    simp [hf]

/-! Claim theorems. -/

/-- C1: for every submission (sendTransaction and sendSignedTransaction) and
every exit path — success, timeout, on-chain failure, or unexpected exception
(every confirmation and simulation outcome) — the done flag, initialized
false, is written true exactly once (the single write of the finally clause),
and the broadcast loop issues no resubmission after observing the flag true:
if done is observed true at iteration k, the loop emits at most k events, all
at earlier iterations. -/
theorem C1_done_flag_single_flip :
    (∀ (tx : Transaction) (payer : Payer) (s : List Account) (env : SendEnv)
        (t : Nat) (lvl : TransactionConfirmationStatus),
      (sendTransactionWith tx payer s env t lvl).doneWrites = [true])
    ∧ (∀ (st : Transaction) (env : SendEnv) (t : Nat)
        (lvl : TransactionConfirmationStatus),
      (sendSignedTransactionWith st env t lvl).doneWrites = [true])
    ∧ (∀ (raw : List Nat) (bound : Nat) (doneAt : Nat → Bool)
        (elapsed : Nat → Nat) (fuel k : Nat), doneAt k = true →
      (broadcastLoopSends raw bound doneAt elapsed fuel).length ≤ k) := by
  refine ⟨fun _ _ _ _ _ _ => rfl, fun _ _ _ _ => rfl, ?_⟩
  intro raw bound doneAt elapsed fuel k hk
  have h := broadcastLoopFrom_length_le raw bound doneAt elapsed hk fuel 0 (Nat.zero_le k)
  simpa using h

/-- C1 witness: concrete submission and a loop schedule that observes done
true from iteration 2 on. -/
theorem C1_witness :
    (sendTransactionWith sampleTx samplePayer [] sampleEnvOk 30000 .processed).doneWrites
      = [true]
    ∧ (broadcastLoopSends [1] 30000 (fun i => decide (2 ≤ i)) (fun _ => 0) 10).length ≤ 2 :=
  ⟨C1_done_flag_single_flip.1 sampleTx samplePayer [] sampleEnvOk 30000 .processed,
   C1_done_flag_single_flip.2.2 [1] 30000 (fun i => decide (2 ≤ i)) (fun _ => 0) 10 2
     (by decide)⟩

/-- C2 counterexample: with three submissions whose middle slot raises a
timeout, sendTransactions rejects as a whole with that single error instead of
returning a slot-indexed mapping of result-or-error — the failing slot erases
the results of its sibling slots, although each sibling submission on its own
succeeds in the very same environment. -/
theorem C2_counterexample :
    sendTransactionsWith [sampleTx, sampleTx, sampleTx] samplePayer []
      (fun i => if i = 1 then sampleEnvTimeout else sampleEnvOk) 30000 .confirmed
      = .error .timedOut
    ∧ (sendTransactionWith sampleTx samplePayer [] sampleEnvOk 30000 .confirmed).result
      = .ok 11 :=
  ⟨rfl, rfl⟩

/-- C2 amended: sendTransactions runs one independent sendTransaction per slot
(each slot's result a function of its own environment only) and aggregates
with Promise.all: the call resolves with the index-aligned signature list
exactly when every slot succeeds, and when it rejects, the rejection is the
error of one of the slots — sibling results are then not returned. -/
theorem C2_batch_promise_all (txs : List Transaction) (payer : Payer)
    (s : List Account) (envOf : Nat → SendEnv) (t : Nat)
    (lvl : TransactionConfirmationStatus) :
    (∀ l : List Nat,
      sendTransactionsWith txs payer s envOf t lvl = .ok l ↔
        txs.enum.map
            (fun p => (sendTransactionWith p.2 payer s (envOf p.1) t lvl).result)
          = l.map Except.ok)
    ∧ (∀ e : TxError,
      sendTransactionsWith txs payer s envOf t lvl = .error e →
        Except.error e ∈ txs.enum.map
          (fun p => (sendTransactionWith p.2 payer s (envOf p.1) t lvl).result)) := by
  constructor
  · intro l
    constructor
    · intro h
      exact promiseAll_ok_eq _ _ h
    · intro h
      unfold sendTransactionsWith
      rw [h]
      exact promiseAll_map_ok l
  · intro e h
    exact promiseAll_error_mem _ _ h

/-- C2 witness: a two-slot batch in which both slots succeed resolves with the
index-aligned signature list. -/
theorem C2_witness :
    sendTransactionsWith [sampleTx, sampleTx] samplePayer [] (fun _ => sampleEnvOk)
      30000 .confirmed = .ok [11, 11] :=
  ((C2_batch_promise_all [sampleTx, sampleTx] samplePayer [] (fun _ => sampleEnvOk)
      30000 .confirmed).1 [11, 11]).mpr rfl

/-- C3 counterexample: when the watcher raises a timeout, the catch block
rethrows immediately — simulateTransaction is not invoked on the timeout path,
so the diagnostician does not run before the timeout error is surfaced. -/
theorem C3_counterexample :
    (sendTransactionWith sampleTx samplePayer [] sampleEnvTimeout 30000
        .processed).simInvoked = false
    ∧ (sendTransactionWith sampleTx samplePayer [] sampleEnvTimeout 30000
        .processed).result = .error .timedOut
    ∧ sampleEnvTimeout.confirm = .error { timeout := true } :=
  ⟨rfl, rfl, rfl⟩

/-- C3 amended: the failure diagnostician (the simulation query) is invoked
exactly on the non-timeout failure path: when the watcher raises an error,
simulation runs if and only if that error is not a timeout, in sendTransaction
and sendSignedTransaction alike. -/
theorem C3_diagnose_only_nontimeout (tx : Transaction) (payer : Payer)
    (s : List Account) (st : Transaction) (env : SendEnv) (t : Nat)
    (lvl : TransactionConfirmationStatus) (err : ConfirmErr)
    (h : env.confirm = .error err) :
    (sendTransactionWith tx payer s env t lvl).simInvoked = !err.timeout
    ∧ (sendSignedTransactionWith st env t lvl).simInvoked = !err.timeout := by
  constructor <;> simp [sendTransactionWith, sendSignedTransactionWith, h]

/-- C3 witness: on a non-timeout failure the simulation is invoked. -/
theorem C3_witness :
    (sendTransactionWith sampleTx samplePayer [] sampleEnvSimThrew 30000
        .processed).simInvoked = !false :=
  (C3_diagnose_only_nontimeout sampleTx samplePayer [] sampleTx sampleEnvSimThrew
      30000 .processed { timeout := false } rfl).1

/-- C4: on a failed confirmation where the simulation succeeds and reports an
on-chain error together with a log list, the thrown failure carries as its
diagnosis the content of the last log line starting with the program-log tag,
stripped of that tag (the backward scan coincides with the last element of the
tag-filtered list); when no tagged line exists it falls back to the serialized
raw error payload. On the worked example the extracted diagnosis is the string
insufficient funds. Holds for sendTransaction and sendSignedTransaction
alike. -/
theorem C4_diagnosis_extraction (tx : Transaction) (payer : Payer)
    (s : List Account) (st : Transaction) (env : SendEnv) (t : Nat)
    (lvl : TransactionConfirmationStatus) (err : ConfirmErr) (e : String)
    (logs : List String) (h1 : err.timeout = false)
    (h2 : env.confirm = .error err)
    (h3 : env.sim = .ok { err := some e, logs := some logs }) :
    ((sendTransactionWith tx payer s env t lvl).result =
      .error
        (match (logs.filter (fun line => strStartsWith line programLogTag)).getLast? with
         | some line => .programLog (line.drop programLogTag.length)
         | none => .rawPayload e))
    ∧ ((sendSignedTransactionWith st env t lvl).result =
      .error
        (match (logs.filter (fun line => strStartsWith line programLogTag)).getLast? with
         | some line => .programLog (line.drop programLogTag.length)
         | none => .rawPayload e))
    ∧ findProgramLog sampleLogs = some "insufficient funds" := by
  refine ⟨?_, ?_, rfl⟩ <;>
    simp [sendTransactionWith, sendSignedTransactionWith, h2, h3,
      confirmFailureError_with_logs err h1 e logs]

/-- C4 witness: on the worked example environment the submission fails with
the diagnosis extracted from the last program-log line. -/
theorem C4_witness :
    (sendTransactionWith sampleTx samplePayer [] sampleEnvSimLogs 30000
        .processed).result = .error (.programLog "insufficient funds") :=
  (C4_diagnosis_extraction sampleTx samplePayer [] sampleTx sampleEnvSimLogs 30000
      .processed { timeout := false } "custom program error 0x1" sampleLogs rfl rfl
      rfl).1

/-- C5 counterexample: the while guard of the broadcast loop also tests the
elapsed time against the timeout: with the done flag observed false and the
elapsed time at the bound, the guard is false and the loop exits without any
resubmission — so the loop exit does not depend entirely on the done flag; the
guard bound comes from the submission's timeout argument (here the 30000 ms
default). -/
theorem C5_counterexample :
    loopGuard false 30000 30000 = false
    ∧ broadcastLoopSends [1] 30000 (fun _ => false) (fun _ => 30000) 5 = []
    ∧ (sendTransactionDefault sampleTx samplePayer [] sampleEnvOk).loopGuardBoundMs
      = 30000 :=
  ⟨rfl, rfl, rfl⟩

/-- C5 amended: the timeout bounds the confirmation watcher and additionally
the broadcast loop: the loop guard holds exactly when the done flag is false
and the elapsed time is below the bound, the bound being the timeout (in
milliseconds) in sendTransaction and 1000 * timeout in sendSignedTransaction,
whose source compares elapsed seconds against the raw millisecond value. -/
theorem C5_loop_guard (tx : Transaction) (payer : Payer) (s : List Account)
    (st : Transaction) (env : SendEnv) (t : Nat)
    (lvl : TransactionConfirmationStatus) :
    (sendTransactionWith tx payer s env t lvl).loopGuardBoundMs = t
    ∧ (sendSignedTransactionWith st env t lvl).loopGuardBoundMs = 1000 * t
    ∧ (∀ (d : Bool) (e b : Nat), loopGuard d e b = true ↔ (d = false ∧ e < b)) := by
  refine ⟨rfl, rfl, ?_⟩
  intro d e b
  cases d <;> simp [loopGuard]

/-- C6: the transaction is serialized once at signing time — sendTransaction
serializes the in-place state produced by signTransaction and
sendSignedTransaction the given signed transaction — the initial submission
carries exactly those bytes, and every resubmission the broadcast loop issues
carries exactly the bytes of the initial send: the loop never re-signs and
never alters the transaction or its freshness token. -/
theorem C6_rebroadcast_identical_bytes (tx : Transaction) (payer : Payer)
    (s : List Account) (st : Transaction) (env : SendEnv) (t : Nat)
    (lvl : TransactionConfirmationStatus) (bound : Nat) (doneAt : Nat → Bool)
    (elapsed : Nat → Nat) (fuel : Nat) :
    (sendTransactionWith tx payer s env t lvl).initialSend.bytes
      = ((signTransaction env.blockhash tx payer s).txAfter).serialize
    ∧ (sendSignedTransactionWith st env t lvl).initialSend.bytes = st.serialize
    ∧ (∀ ev ∈ broadcastLoopSends
          ((sendTransactionWith tx payer s env t lvl).rawTransaction)
          bound doneAt elapsed fuel,
        ev.bytes = (sendTransactionWith tx payer s env t lvl).initialSend.bytes)
    ∧ (∀ ev ∈ broadcastLoopSends
          ((sendSignedTransactionWith st env t lvl).rawTransaction)
          bound doneAt elapsed fuel,
        ev.bytes = (sendSignedTransactionWith st env t lvl).initialSend.bytes) := by
  refine ⟨rfl, rfl, ?_, ?_⟩ <;>
    exact fun ev hev => (mem_broadcastLoopFrom _ _ _ _ _ _ ev hev).1

/-- C6 witness: the one resubmission of a concrete one-iteration schedule
carries exactly the bytes of the initial send. -/
theorem C6_witness :
    ({ bytes := (sendTransactionDefault sampleTx samplePayer [] sampleEnvOk).rawTransaction,
       skipPreflight := true } : SendEvent).bytes
      = (sendTransactionDefault sampleTx samplePayer [] sampleEnvOk).initialSend.bytes :=
  (C6_rebroadcast_identical_bytes sampleTx samplePayer [] sampleTx sampleEnvOk 30000
      .processed 30000 (fun _ => false) (fun _ => 0) 1).2.2.1 _
    (List.mem_singleton.mpr rfl)

/-- C7 counterexample: an external wallet capability whose adapter reports
connected = false is not delegated to — signTransaction falls through to the
local signing path, because payer?.connected, not wallet-ness, is the
discriminator — refuting that every wallet payer has the final signing step
delegated. -/
theorem C7_counterexample :
    (Payer.wallet sampleDisconnectedWallet).isAccount = false
    ∧ (signTransaction 7 sampleTx (Payer.wallet sampleDisconnectedWallet)
        [sampleSigner]).delegated = false
    ∧ (signTransaction 7 sampleTx (Payer.wallet sampleDisconnectedWallet)
        [sampleSigner]).localSigned = true :=
  ⟨rfl, rfl, rfl⟩

/-- C7 amended: per signing call exactly one of the two paths runs (delegated
equals not locally-signed); in signTransaction delegation happens exactly when
payer?.connected is truthy — never for an Account, and for a wallet exactly
when its connected flag is set, a disconnected wallet falling through to the
local path; in signTransactions delegation happens exactly when the payer is
not an Account; and whenever delegation happens the transaction handed to the
wallet already carries the additional signers partial signatures. -/
theorem C7_sign_paths (bh : Nat) (t : Transaction) (payer : Payer)
    (signers : List Account) (batch : List (Transaction × List Account)) :
    ((signTransaction bh t payer signers).delegated
      = !(signTransaction bh t payer signers).localSigned)
    ∧ ((signTransaction bh t payer signers).delegated = payer.connected)
    ∧ ((signTransactions bh batch payer).delegated
      = !(signTransactions bh batch payer).localSigned)
    ∧ ((signTransactions bh batch payer).delegated = !payer.isAccount)
    ∧ (∀ tw, (signTransaction bh t payer signers).passedToWallet = some tw →
        tw.sigs = signers.map Account.pubkey) := by
  cases payer with
  | account a =>
      refine ⟨rfl, rfl, rfl, rfl, ?_⟩
      intro tw htw
      simp [signTransaction] at htw
  | wallet w =>
      cases hw : w.connected with
      | false =>
          refine ⟨?_, ?_, rfl, rfl, ?_⟩
          · simp [signTransaction, hw]
          · simp [signTransaction, Payer.connected, hw]
          · intro tw htw
            simp [signTransaction, hw] at htw
      | true =>
          refine ⟨?_, ?_, rfl, rfl, ?_⟩
          · simp [signTransaction, hw]
          · simp [signTransaction, Payer.connected, hw]
          · intro tw htw
            simp only [signTransaction, hw, if_true] at htw
            cases htw
            exact preSignPrepare_sigs _ _ _ _

/-- C7 witness: with a connected wallet the two paths are mutually exclusive
and the transaction handed to the wallet carries the additional signer
signature. -/
theorem C7_witness :
    ((signTransaction 7 sampleTx (Payer.wallet sampleConnectedWallet)
        [sampleSigner]).delegated
      = !(signTransaction 7 sampleTx (Payer.wallet sampleConnectedWallet)
        [sampleSigner]).localSigned)
    ∧ (preSignPrepare 7 sampleTx 5 [sampleSigner]).sigs
      = [sampleSigner].map Account.pubkey :=
  ⟨(C7_sign_paths 7 sampleTx (Payer.wallet sampleConnectedWallet) [sampleSigner]
      []).1,
   (C7_sign_paths 7 sampleTx (Payer.wallet sampleConnectedWallet) [sampleSigner]
      []).2.2.2.2 (preSignPrepare 7 sampleTx 5 [sampleSigner]) rfl⟩

/-- C8: when the watcher raises a non-timeout failure and the simulation call
itself throws (endpoint unreachable), the submission still fails with the
generic failure, not with the simulation error — the diagnostician's own
failure never masks the primary failure. -/
theorem C8_sim_failure_generic (tx : Transaction) (payer : Payer)
    (s : List Account) (st : Transaction) (env : SendEnv) (t : Nat)
    (lvl : TransactionConfirmationStatus) (err : ConfirmErr)
    (h1 : err.timeout = false) (h2 : env.confirm = .error err)
    (h3 : env.sim = .error ()) :
    (sendTransactionWith tx payer s env t lvl).result = .error .generic
    ∧ (sendSignedTransactionWith st env t lvl).result = .error .generic := by
  constructor <;>
    simp [sendTransactionWith, sendSignedTransactionWith, confirmFailureError,
      h1, h2, h3]

/-- C8 witness: concrete environment whose simulation call throws. -/
theorem C8_witness :
    (sendTransactionWith sampleTx samplePayer [] sampleEnvSimThrew 30000
        .processed).result = .error .generic :=
  (C8_sim_failure_generic sampleTx samplePayer [] sampleTx sampleEnvSimThrew 30000
      .processed { timeout := false } rfl rfl rfl).1

/-- C9: configuration defaults of the public submit operations: sendTransaction
defaults to timeout 30000 ms and level processed, sendSignedTransaction to
timeout 30000 ms and level processed, sendTransactions to timeout 30000 ms and
level confirmed; every network submission — the initial one and every loop
resubmission — is issued with skipPreflight true; and the rebroadcast cadence
is 2000 ms on the initial-call path and 500 ms on the pre-signed fast path. -/
theorem C9_config_defaults (tx : Transaction) (payer : Payer) (s : List Account)
    (st : Transaction) (env : SendEnv) (txs : List Transaction)
    (envOf : Nat → SendEnv) (raw : List Nat) (bound : Nat) (doneAt : Nat → Bool)
    (elapsed : Nat → Nat) (fuel : Nat) :
    sendTransactionDefault tx payer s env
      = sendTransactionWith tx payer s env 30000 .processed
    ∧ (sendTransactionDefault tx payer s env).timeoutMsUsed = 30000
    ∧ (sendTransactionDefault tx payer s env).confirmLevelUsed = .processed
    ∧ (sendTransactionDefault tx payer s env).initialSend.skipPreflight = true
    ∧ (sendTransactionDefault tx payer s env).loopCadenceMs = 2000
    ∧ sendSignedTransactionDefault st env
      = sendSignedTransactionWith st env 30000 .processed
    ∧ (sendSignedTransactionDefault st env).timeoutMsUsed = 30000
    ∧ (sendSignedTransactionDefault st env).confirmLevelUsed = .processed
    ∧ (sendSignedTransactionDefault st env).initialSend.skipPreflight = true
    ∧ (sendSignedTransactionDefault st env).loopCadenceMs = 500
    ∧ sendTransactionsDefault txs payer s envOf
      = sendTransactionsWith txs payer s envOf 30000 .confirmed
    ∧ (∀ ev ∈ broadcastLoopSends raw bound doneAt elapsed fuel,
        ev.skipPreflight = true) := by
  refine ⟨rfl, rfl, rfl, rfl, rfl, rfl, rfl, rfl, rfl, rfl, rfl, ?_⟩
  exact fun ev hev => (mem_broadcastLoopFrom _ _ _ _ _ _ ev hev).2

/-- C9 witness: the one resubmission of a concrete one-iteration schedule is
issued with skipPreflight true. -/
theorem C9_witness :
    ({ bytes := (sendSignedTransactionDefault sampleTx sampleEnvOk).rawTransaction,
       skipPreflight := true } : SendEvent).skipPreflight = true :=
  (C9_config_defaults sampleTx samplePayer [] sampleTx sampleEnvOk [] (fun _ => sampleEnvOk)
      ((sendSignedTransactionDefault sampleTx sampleEnvOk).rawTransaction) 30000
      (fun _ => false) (fun _ => 0) 1).2.2.2.2.2.2.2.2.2.2.2 _
    (List.mem_singleton.mpr rfl)

/-- C10: in the external-wallet path sendTransaction discards the value the
wallet call returns — replacing signReturn changes nothing in the outcome —
and serializes the state of its original transaction argument, so the
broadcast bytes are the serialization of the wallet's in-place mutation of
that object; in particular, when the wallet does not mutate the object in
place (signMutate = id) and its key is not among the additional signers, the
broadcast transaction carries no signature of the wallet. -/
theorem C10_wallet_return_discarded (tx : Transaction) (w : WalletAdapter)
    (s : List Account) (env : SendEnv) (t : Nat)
    (lvl : TransactionConfirmationStatus) (r : Transaction → Transaction)
    (hc : w.connected = true) :
    (sendTransactionWith tx (.wallet w) s env t lvl).rawTransaction
      = (w.signMutate (preSignPrepare env.blockhash tx w.pubkey s)).serialize
    ∧ sendTransactionWith tx (.wallet { w with signReturn := r }) s env t lvl
      = sendTransactionWith tx (.wallet w) s env t lvl
    ∧ (w.signMutate = id → w.pubkey ∉ s.map Account.pubkey →
        w.pubkey ∉ (sendTransactionWith tx (.wallet w) s env t lvl).signedTx.sigs) := by
  refine ⟨?_, ?_, ?_⟩
  · simp [sendTransactionWith, signTransaction, hc, Payer.publicKey]
  · simp [sendTransactionWith, signTransaction, hc, Payer.publicKey]
  · intro hm hn
    have hx : (sendTransactionWith tx (.wallet w) s env t lvl).signedTx.sigs
        = s.map Account.pubkey := by
      simp [sendTransactionWith, signTransaction, hc, hm, Payer.publicKey,
        preSignPrepare_sigs]
    rw [hx]
    exact hn

/-- C10 witness: concrete connected wallet that only mutates in place; the
broadcast bytes are the serialization of that in-place state, and with the
identity mutation the wallet signature is absent. -/
theorem C10_witness :
    (sendTransactionWith sampleTx (.wallet sampleConnectedWallet) [sampleSigner]
        sampleEnvOk 30000 .processed).rawTransaction
      = (sampleConnectedWallet.signMutate
          (preSignPrepare 7 sampleTx 5 [sampleSigner])).serialize
    ∧ (5 : Nat) ∉ (sendTransactionWith sampleTx (.wallet sampleConnectedWallet)
        [sampleSigner] sampleEnvOk 30000 .processed).signedTx.sigs :=
  ⟨(C10_wallet_return_discarded sampleTx sampleConnectedWallet [sampleSigner]
      sampleEnvOk 30000 .processed id rfl).1,
   (C10_wallet_return_discarded sampleTx sampleConnectedWallet [sampleSigner]
      sampleEnvOk 30000 .processed id rfl).2.2 rfl (by decide)⟩

end Quasar
